import Mathlib

/-!
Shallow embedding of the edge_fhir_hybrid decision pipeline.

The Python sources embedded here:
  app/fhir_features.py  (feature extraction; two shadowed definitions of
                         hash_string and extract_features - the second of
                         each is the one in effect after module load)
  app/edge_model.py     (HybridDeployedModel: scaling, mask selection,
                         weighted RF+XGB probability fusion)
  app/server.py         (fhir_notify pipeline, compute_severity)
  app/detector.py       (EdgeDetector: _score, _severity, analyze)
  app/cnn/trt_runtime.py, app/trt/ae_runtime.py, app/ae_runtime.py
                        (reconstruction-error scoring)

Machine floats are modelled as rationals; numpy / torch / sklearn backends
and Python builtins (str(), hashlib.sha1, float() string parsing) are
modelled as explicit function parameters, since the repository treats them
as black-box scoring / encoding functions.
-/

/-- A JSON-shaped Python value, as produced by request.get_json() and
consumed by fhir_features.extract_features. -/
inductive PyVal where
  | none
  | bool (b : Bool)
  | int (n : Int)
  | float (q : ℚ)
  | str (s : String)
  | list (xs : List PyVal)
  | dict (kvs : List (String × PyVal))

/-- Python builtins used by fhir_features.py, modelled as oracles:
pyStr is str(value); sha1hex is int(hashlib.sha1(s.encode()).hexdigest(), 16);
parseFloat is float(s) on a string (none when it raises ValueError). -/
structure PyBuiltins where
  pyStr : PyVal → String
  sha1hex : String → Nat
  parseFloat : String → Option ℚ

/-- Python truthiness for the values of our model. -/
def pyTruthy : PyVal → Bool
  | PyVal.none => false
  | PyVal.bool b => b
  | PyVal.int n => decide (n ≠ 0)
  | PyVal.float q => decide (q ≠ 0)
  | PyVal.str s => decide (s ≠ "")
  | PyVal.list xs => !xs.isEmpty
  | PyVal.dict kvs => !kvs.isEmpty

/-- Python `a or b`. -/
def pyOr (a b : PyVal) : PyVal := if pyTruthy a then a else b

/-- isinstance(v, dict). -/
def pyIsDict : PyVal → Bool
  | PyVal.dict _ => true
  | _ => false

/-- Lookup in a dict body (keys assumed unique, as in a parsed JSON object). -/
def dictLookup (kvs : List (String × PyVal)) (k : String) : Option PyVal :=
  (kvs.find? (fun kv => kv.1 == k)).map (fun kv => kv.2)

/-- Python v.get(k, d): succeeds on a dict, raises AttributeError otherwise. -/
def pyGetE (v : PyVal) (k : String) (d : PyVal) : Except String PyVal :=
  match v with
  | PyVal.dict kvs => Except.ok ((dictLookup kvs k).getD d)
  | _ => Except.error ("AttributeError: get")

/-- Python len(v): defined on lists, strings and dicts, TypeError otherwise. -/
def pyLen : PyVal → Except String Nat
  | PyVal.list xs => Except.ok xs.length
  | PyVal.str s => Except.ok s.length
  | PyVal.dict kvs => Except.ok kvs.length
  | _ => Except.error ("TypeError: len")

/-- Does the character list start with the given needle. -/
def startsWithChars : List Char → List Char → Bool
  | _, [] => true
  | [], _ :: _ => false
  | a :: as, n :: ns => decide (a = n) && startsWithChars as ns

/-- Does the character list contain the needle as a contiguous run. -/
def hasSubChars : List Char → List Char → Bool
  | [], needle => needle.isEmpty
  | a :: as, needle => startsWithChars (a :: as) needle || hasSubChars as needle

/-- Python `needle in hay` on strings. -/
def strContainsStr (hay needle : String) : Bool :=
  hasSubChars hay.toList needle.toList

/-- Python str.lower(), on the character list (ASCII case mapping; the
needles searched for are ASCII). -/
def lowerChars (s : String) : String := String.mk (s.data.map Char.toLower)

/-- fhir_features.py lines 2-3: the FIRST definition of hash_string, whose
default modulus is 10000.  It is shadowed by the later definition and is
not the one in effect after module load. -/
def hash_string_v1 (B : PyBuiltins) (value : PyVal) : Nat :=
  B.sha1hex (B.pyStr value) % 10000

/-- fhir_features.py lines 62-79: the SECOND definition of hash_string, in
effect after module load: int(sha1(str(value)).hexdigest(), 16) % 100000
(default modulus 100000). -/
def hash_string (B : PyBuiltins) (value : PyVal) : Nat :=
  B.sha1hex (B.pyStr value) % 100000

/-- fhir_features.py _safe_float: float(v) with a default on failure.
float() succeeds on ints, floats, bools, and numeric strings. -/
def safe_float (B : PyBuiltins) (v : PyVal) (default : ℚ) : ℚ :=
  match v with
  | PyVal.int n => (n : ℚ)
  | PyVal.float q => q
  | PyVal.bool b => if b then 1 else 0
  | PyVal.str s => (B.parseFloat s).getD default
  | _ => default

/-- fhir_features.py FEATURE_NAMES (lines 50-59). -/
def FEATURE_NAMES : List String :=
  ["resourceType_hash", "action_hash", "event_type_code_hash", "outcome_value",
   "user_hash", "ip_hash", "agent_count", "failure_flag"]

/-- Metadata dictionary returned by the effective extract_features. -/
structure FeatureMeta where
  resourceType : PyVal
  action : PyVal
  outcome : ℚ
  user_hash : Nat
  ip_hash : Nat
  agent_count : Nat

/-- The .get calls on the coerced top-level dict of extract_features
(fhir_json is replaced by the empty dict when it is not a dict at lines
110-112, so these .get calls cannot raise). -/
def jGet (j : PyVal) (k : String) (d : PyVal) : PyVal :=
  match j with
  | PyVal.dict kvs => (dictLookup kvs k).getD d
  | _ => d

/-- fhir_features.py lines 133-140: user_val and ip_val stay "" unless
agents is a nonempty list; a truthy non-dict agents[0] makes
first_agent.get raise AttributeError. -/
def agentUserIp (agents : PyVal) : Except String (PyVal × PyVal) :=
  match agents with
  | PyVal.list xs =>
    if 0 < xs.length then
      match pyOr (xs.headD PyVal.none) (PyVal.dict []) with
      | PyVal.dict kvs =>
        let userVal := (dictLookup kvs ("userId")).getD (PyVal.str (""))
        let network := pyOr ((dictLookup kvs ("network")).getD PyVal.none) (PyVal.dict [])
        let ipVal :=
          match network with
          | PyVal.dict kvs2 => (dictLookup kvs2 ("address")).getD (PyVal.str (""))
          | _ => PyVal.str ("")
        Except.ok (userVal, ipVal)
      | _ => Except.error ("AttributeError: get")
    else Except.ok (PyVal.str (""), PyVal.str (""))
  | _ => Except.ok (PyVal.str (""), PyVal.str (""))

/-- fhir_features.py lines 89-174: the SECOND (effective) extract_features.
Statements that can raise in Python are modelled in the Except monad:
len(agents) at line 132 raises TypeError on a truthy non-list "agent"
field (evaluated BEFORE the isinstance(agents, list) guard of line 135),
and first_agent.get(...) raises AttributeError on a truthy non-dict first
agent.  float32 values are modelled as rationals. -/
def extract_features (B : PyBuiltins) (fhirJson : PyVal) :
    Except String (List ℚ × FeatureMeta) :=
  let j := if pyIsDict fhirJson then fhirJson else PyVal.dict []
  let resourceType := jGet j ("resourceType") (PyVal.str ("Unknown"))
  let action := jGet j ("action") (PyVal.str (""))
  let outcomeVal := safe_float B (jGet j ("outcome") PyVal.none) 0
  let eventBlock := pyOr (jGet j ("event") PyVal.none) (PyVal.dict [])
  let eventTypeCode : PyVal :=
    match eventBlock with
    | PyVal.dict kvs =>
      match pyOr ((dictLookup kvs ("type")).getD PyVal.none) (PyVal.dict []) with
      | PyVal.dict kvs2 => (dictLookup kvs2 ("code")).getD (PyVal.str (""))
      | _ => PyVal.str ("")
    | _ => PyVal.str ("")
  let agents := pyOr (jGet j ("agent") PyVal.none) (PyVal.list [])
  match pyLen agents, agentUserIp agents with
  | Except.error e, _ => Except.error e
  | Except.ok _, Except.error e => Except.error e
  | Except.ok agentCountN, Except.ok userIp =>
    let textLower := lowerChars (B.pyStr j)
    let failureFlag : ℚ :=
      if strContainsStr textLower ("fail") || strContainsStr textLower ("denied")
      then 1 else 0
    Except.ok
      ([ (hash_string B resourceType : ℚ),
         (hash_string B action : ℚ),
         (hash_string B eventTypeCode : ℚ),
         outcomeVal,
         (hash_string B userIp.1 : ℚ),
         (hash_string B userIp.2 : ℚ),
         (agentCountN : ℚ),
         failureFlag ],
       { resourceType := resourceType, action := action, outcome := outcomeVal,
         user_hash := hash_string B userIp.1, ip_hash := hash_string B userIp.2,
         agent_count := agentCountN })

/-- Maximum of a list of rationals (np.max over one row; 0 default is never
relied on: callers guard the empty row, which raises in numpy). -/
def maxList : List ℚ → ℚ
  | [] => 0
  | x :: xs => xs.foldl max x

/-- Helper for argmaxIdx: current position, best index, best value. -/
def argmaxAux : List ℚ → Nat → Nat → ℚ → Nat
  | [], _, best, _ => best
  | x :: xs, i, best, bv =>
    if bv < x then argmaxAux xs (i + 1) i x else argmaxAux xs (i + 1) best bv

/-- np.argmax over one row: index of the first maximal entry (0 on the empty
row, which raises in numpy; callers guard it). -/
def argmaxIdx : List ℚ → Nat
  | [] => 0
  | x :: xs => argmaxAux xs 1 0 x

/-- edge_model.py line 127: X_scaled[:, mask] - keep entries whose mask bit
is true, preserving order. -/
def selectMask (mask : List Bool) (xs : List ℚ) : List ℚ :=
  ((xs.zip mask).filter (fun p => p.2)).map (fun p => p.1)

/-- edge_model.py lines 136-139: elementwise weighted sum of the two
probability rows (numpy broadcasting on equal shapes). -/
def fuseProbs (wA wB : ℚ) (a b : List ℚ) : List ℚ :=
  List.zipWith (fun x y => wA * x + wB * y) a b

/-- edge_model.py HybridDeployedModel: the fitted scaler, feature mask,
the two tree-ensemble probability functions (single-row form), the label
encoder classes, and the ensemble weights (0.5 / 0.5 in __init__). -/
structure HybridModel where
  scalerTransform : List ℚ → List ℚ
  mask : List Bool
  rfPredictProba : List ℚ → List ℚ
  xgbPredictProba : List ℚ → List ℚ
  classes : List String
  rfWeight : ℚ := 1 / 2
  xgbWeight : ℚ := 1 / 2

/-- edge_model.py lines 112-141 predict_proba on one row: scale, select by
mask, run both classifiers, fuse by the weighted average. -/
def predict_proba (m : HybridModel) (x : List ℚ) : List ℚ × List String :=
  let xSelected := selectMask m.mask (m.scalerTransform x)
  let rfProbs := m.rfPredictProba xSelected
  let xgbProbs := m.xgbPredictProba xSelected
  (fuseProbs m.rfWeight m.xgbWeight rfProbs xgbProbs, m.classes)

/-- server.py lines 239-254: predict_with_confidence on one row followed by
pred_class / confidence extraction.  An empty probability row (np.argmax
raises) or an out-of-range class index (IndexError) is caught by the
except branch of fhir_notify, which falls back to ("Unknown", 0.0). -/
def classifierOutput (m : HybridModel) (x : List ℚ) : String × ℚ :=
  let pc := predict_proba m x
  match pc.1, pc.2.get? (argmaxIdx pc.1) with
  | [], _ => (("Unknown"), 0)
  | _ :: _, Option.none => (("Unknown"), 0)
  | _ :: _, Option.some c => (c, maxList pc.1)

/-- server.py line 48. -/
def MSE_THRESHOLD_LOW : ℚ := 5 / 100

/-- server.py line 49. -/
def MSE_THRESHOLD_HIGH : ℚ := 15 / 100

/-- server.py line 126: attack_classes. -/
def attack_classes : List String :=
  ["DDoS", "ScanPort", "Infiltration", "Malware"]

/-- server.py line 140: suspicious_classes. -/
def suspicious_classes : List String :=
  ["Suspicious", "Anomaly", "Unknown"]

/-- server.py lines 108-144 compute_severity, with the global CNN_READY flag
passed explicitly. -/
def compute_severity (cnnReady : Bool) (predClass : String) (mse confidence : ℚ) :
    String :=
  if predClass ∈ attack_classes ∧ 7 / 10 < confidence then "HIGH"
  else if cnnReady = true ∧ MSE_THRESHOLD_HIGH < mse then "HIGH"
  else if cnnReady = true ∧ MSE_THRESHOLD_LOW < mse then "MEDIUM"
  else if predClass ∈ suspicious_classes then "MEDIUM"
  else "LOW"

/-- The global readiness flags of server.py. -/
structure ServerState where
  modelReady : Bool
  cnnReady : Bool

/-- The fields of the /fhir/notify response relevant to the claims, plus
call-count instrumentation for the two tree-ensemble classifiers. -/
structure NotifyResult where
  pred : String
  score : ℚ
  sev : String
  anom : Bool
  cnnMse : ℚ
  cnnAvailable : Bool
  rfInvoked : Bool
  xgbInvoked : Bool
deriving DecidableEq

/-- server.py lines 235-300: the post-extraction pipeline of fhir_notify on
one request.  cnnResult models cnn_runtime.compute_reconstruction_error:
some mse on success, none when it raises (caught at lines 269-272).
rf and xgb are invoked exactly when MODEL_READY holds (lines 237-239);
the CNN is consulted exactly when CNN_READY holds (lines 263-266). -/
def fhir_notify (st : ServerState) (m : HybridModel) (cnnResult : Option ℚ)
    (features : List ℚ) : NotifyResult :=
  let pc := if st.modelReady then classifierOutput m features else (("Unknown"), 0)
  let predClass := pc.1
  let confidence := pc.2
  let mse : ℚ := if st.cnnReady then cnnResult.getD 0 else 0
  let cnnAvailable := st.cnnReady && cnnResult.isSome
  let isAnomaly :=
    decide (predClass ∈ attack_classes) ||
    (cnnAvailable && decide (MSE_THRESHOLD_HIGH < mse))
  let severity := compute_severity st.cnnReady predClass mse confidence
  { pred := predClass, score := confidence, sev := severity, anom := isAnomaly,
    cnnMse := mse, cnnAvailable := cnnAvailable,
    rfInvoked := st.modelReady, xgbInvoked := st.modelReady }

/-- config.py defaults consumed by EdgeDetector (NORMAL_CLASS, SEV_HIGH,
SEV_MED), kept as fields since the constructor takes them as arguments. -/
structure DetectorCfg where
  normalClass : String := "Normal"
  sevHigh : ℚ := 95 / 100
  sevMed : ℚ := 85 / 100

/-- Python list.index within the membership guard of detector._score. -/
def indexOfStr : List String → String → Nat
  | [], _ => 0
  | x :: xs, s => if x = s then 0 else indexOfStr xs s + 1

/-- detector.py lines 25-33 _score: 1 - P(normal_class) when the class list
contains the normal class and the index is in range of the probability row
(an IndexError is caught and falls back), else 1 - max(prob_vec). -/
def det_score (d : DetectorCfg) (probVec : List ℚ) (classes : List String) : ℚ :=
  if d.normalClass ∈ classes then
    match probVec.get? (indexOfStr classes d.normalClass) with
    | Option.some p => 1 - p
    | Option.none => 1 - maxList probVec
  else 1 - maxList probVec

/-- detector.py lines 35-40 _severity. -/
def det_severity (d : DetectorCfg) (score : ℚ) : String :=
  if d.sevHigh ≤ score then "HIGH"
  else if d.sevMed ≤ score then "MEDIUM"
  else "LOW"

/-- The result dictionary of detector.analyze (metadata passthrough omitted:
it returns the meta argument unchanged). -/
structure DetResult where
  pred : String
  score : ℚ
  sev : String
  anom : Bool
deriving DecidableEq

/-- detector.py lines 42-61 analyze, parameterized over what the wrapped
model returns for the single input row: predLabel is labels[0], probVec is
probs[0], classes is model.le.classes_. -/
def analyze (d : DetectorCfg) (predLabel : String) (probVec : List ℚ)
    (classes : List String) : DetResult :=
  let score := det_score d probVec classes
  let sev := det_severity d score
  let isAnom := decide (predLabel ≠ d.normalClass) || decide (sev ≠ "LOW")
  { pred := predLabel, score := score, sev := sev, anom := isAnom }

/-- Sum of squared elementwise differences over the zipped vectors. -/
def sqDiffSum (v w : List ℚ) : ℚ :=
  ((v.zip w).map (fun p => (p.1 - p.2) ^ 2)).sum

/-- cnn/trt_runtime.py lines 157-169 (and lines 230-242 of the ONNX
fallback): float(np.mean((input - output) ** 2)); elementwise subtraction
requires equal shapes, so the vectors are zipped. -/
def compute_reconstruction_error (infer : List ℚ → List ℚ) (v : List ℚ) : ℚ :=
  sqDiffSum v (infer v) / (v.length : ℚ)

/-- trt/ae_runtime.py lines 34-53 score: ravel both vectors, truncate both
to the shorter length, then mean of squared differences over that run. -/
def trt_ae_score (trtPredict : List ℚ → List ℚ) (x : List ℚ) : ℚ :=
  let recon := trtPredict x
  let minlen := min x.length recon.length
  sqDiffSum (x.take minlen) (recon.take minlen) / (minlen : ℚ)

/-- trt/ae_runtime.py lines 55-67 score_batch: loop over the rows, one
score per row. -/
def trt_ae_score_batch (trtPredict : List ℚ → List ℚ) (rows : List (List ℚ)) :
    List ℚ :=
  rows.map (trt_ae_score trtPredict)

/-- ae_runtime.py lines 94-112 score_batch (torch): per-row mean of squared
differences, dim=1.  The eval-mode network maps each row independently, so
the batch forward pass is modelled as a row-wise function. -/
def torch_score_batch (model : List ℚ → List ℚ) (rows : List (List ℚ)) :
    List ℚ :=
  rows.map (fun row => sqDiffSum row (model row) / (row.length : ℚ))

/-- Modelled from the spec: the reconstruction-error formula of the claim,
score(vector) = mean over the index range of v of (v[i] - w[i])^2. -/
def spec_mean_recon_error (v w : List ℚ) : ℚ :=
  (Finset.sum (Finset.range v.length) (fun i => (v.getD i 0 - w.getD i 0) ^ 2))
    / (v.length : ℚ)

/-- Modelled from the spec: combinedScore = min(1.0, aeScore +
(1 - confidence) * 0.5). -/
def spec_combined_score (aeScore confidence : ℚ) : ℚ :=
  min 1 (aeScore + (1 - confidence) * (1 / 2))

/-- Modelled from the spec: the three-tier severity lookup with boundaries
at thresholds.medium and thresholds.high. -/
def spec_three_tier (medium high score : ℚ) : String :=
  if high ≤ score then "HIGH"
  else if medium ≤ score then "MEDIUM"
  else "LOW"

/-- Severity levels ordered LOW < MEDIUM < HIGH. -/
def sevRank : String → Nat
  | "MEDIUM" => 1
  | "HIGH" => 2
  | _ => 0

/-- Modelled from the spec: the classifier-only severity judgment, i.e.
compute_severity with the reconstruction-error branches removed. -/
def classifier_only_severity (predClass : String) (confidence : ℚ) : String :=
  if predClass ∈ attack_classes ∧ 7 / 10 < confidence then "HIGH"
  else if predClass ∈ suspicious_classes then "MEDIUM"
  else "LOW"

/-- A concrete deployed-model instance used by the closed counterexample
theorems: identity scaler, full mask, and constant classifier outputs. -/
def constModel (cls : List String) (p : List ℚ) : HybridModel :=
  { scalerTransform := fun x => x, mask := [true, true],
    rfPredictProba := fun _ => p, xgbPredictProba := fun _ => p,
    classes := cls }

/-- A concrete builtins instance used by witnesses: every value prints as
the empty string and every digest is 12345. -/
def testBuiltins : PyBuiltins :=
  { pyStr := fun _ => "", sha1hex := fun _ => 12345,
    parseFloat := fun _ => Option.none }

lemma fuseProbs_sum (wA wB : ℚ) :
    ∀ (a b : List ℚ), a.length = b.length →
      (fuseProbs wA wB a b).sum = wA * a.sum + wB * b.sum := by
  intro a
  induction a with
  | nil =>
    intro b hb
    cases b with
    | nil => simp [fuseProbs]
    | cons y ys => simp at hb
  | cons x xs ih =>
    intro b hb
    cases b with
    | nil => simp at hb
    | cons y ys =>
      have hlen : xs.length = ys.length := by simpa using hb
      simp [fuseProbs, List.zipWith] at ih ⊢
      rw [ih ys hlen]
      ring

lemma fuseProbs_getD (wA wB : ℚ) :
    ∀ (a b : List ℚ) (i : Nat), i < a.length → i < b.length →
      (fuseProbs wA wB a b).getD i 0 = wA * a.getD i 0 + wB * b.getD i 0 := by
  intro a
  induction a with
  | nil =>
    intro b i hi
    simp at hi
  | cons x xs ih =>
    intro b i hia hib
    cases b with
    | nil => simp at hib
    | cons y ys =>
      cases i with
      | zero => simp [fuseProbs]
      | succ n =>
        have hna : n < xs.length := by simpa using hia
        have hnb : n < ys.length := by simpa using hib
        simpa [fuseProbs] using ih ys n hna hnb

lemma sqDiffSum_eq_range :
    ∀ (v w : List ℚ), v.length = w.length →
      sqDiffSum v w =
        Finset.sum (Finset.range v.length)
          (fun i => (v.getD i 0 - w.getD i 0) ^ 2) := by
  intro v
  induction v with
  | nil =>
    intro w hw
    simp [sqDiffSum]
  | cons x xs ih =>
    intro w hw
    cases w with
    | nil => simp at hw
    | cons y ys =>
      have hlen : xs.length = ys.length := by simpa using hw
      have hrec := ih ys hlen
      simp only [sqDiffSum, List.zip, List.zipWith, List.map, List.sum_cons,
        List.length_cons] at hrec ⊢
      rw [Finset.sum_range_succ' (fun i =>
        (((x :: xs).getD i 0 - (y :: ys).getD i 0) ^ 2)) xs.length]
      simp only [List.getD_cons_succ, List.getD_cons_zero]
      rw [hrec]
      ring

lemma compute_severity_zero (b : Bool) (p : String) (c : ℚ) :
    compute_severity b p 0 c = classifier_only_severity p c := by
  have h1 : ¬ (MSE_THRESHOLD_HIGH < (0 : ℚ)) := by norm_num [MSE_THRESHOLD_HIGH]
  have h2 : ¬ (MSE_THRESHOLD_LOW < (0 : ℚ)) := by norm_num [MSE_THRESHOLD_LOW]
  unfold compute_severity classifier_only_severity
  simp [h1, h2]

/-- Claim C9: when the anomaly backend is unavailable (CNN_READY false),
compute_severity is noninterferent in its mse argument: any two mse values
yield the same severity for every predicted class and confidence. -/
theorem compute_severity_mse_noninterference :
    ∀ (predClass : String) (confidence m1 m2 : ℚ),
      compute_severity false predClass m1 confidence =
        compute_severity false predClass m2 confidence := by
  intro p c m1 m2
  simp [compute_severity]

/-- Claim C8 (failing input): the effective extract_features is NOT total:
on the dict whose "agent" field is the integer 5, len(agents) at line 132
raises TypeError before the isinstance(agents, list) guard of line 135 is
reached, contradicting the docstring promise of tolerance to unknown
resource shapes. -/
theorem extract_features_agent_type_error :
    ∀ B : PyBuiltins,
      extract_features B (PyVal.dict [(("agent"), PyVal.int 5)]) =
        Except.error ("TypeError: len") := by
  intro B
  rfl

/-- Claim C5: predict_proba fuses the two classifier probability rows by the
weighted linear rule fused[i] = wA*a[i] + wB*b[i]; when the weights sum to 1
and each row sums to 1, the fused row sums to 1 (so certainly within 1e-6). -/
theorem predict_proba_fusion (m : HybridModel) (x : List ℚ) (a b : List ℚ)
    (ha : a = m.rfPredictProba (selectMask m.mask (m.scalerTransform x)))
    (hb : b = m.xgbPredictProba (selectMask m.mask (m.scalerTransform x)))
    (hw : m.rfWeight + m.xgbWeight = 1)
    (hl : a.length = b.length) (hsa : a.sum = 1) (hsb : b.sum = 1) :
    (∀ i, i < a.length →
        (predict_proba m x).1.getD i 0 =
          m.rfWeight * a.getD i 0 + m.xgbWeight * b.getD i 0)
    ∧ |(predict_proba m x).1.sum - 1| ≤ 1 / 1000000 := by
  have hfst : (predict_proba m x).1 = fuseProbs m.rfWeight m.xgbWeight a b := by
    rw [ha, hb]; rfl
  constructor
  · intro i hi
    rw [hfst]
    exact fuseProbs_getD _ _ a b i hi (hl ▸ hi)
  · rw [hfst, fuseProbs_sum _ _ a b hl, hsa, hsb]
    have hone : m.rfWeight * 1 + m.xgbWeight * 1 = 1 := by
      rw [mul_one, mul_one, hw]
    rw [hone]
    norm_num

/-- Witness for predict_proba_fusion at a concrete model and input. -/
theorem predict_proba_fusion_witness :
    ((1 : ℚ) / 2 + 1 / 2 = 1) ∧
    ((∀ i, i < ([(1 : ℚ) / 2, 1 / 2]).length →
        (predict_proba (constModel (["Normal", "DDoS"]) [1 / 2, 1 / 2]) [0, 0]).1.getD i 0 =
          (1 / 2 : ℚ) * ([(1 : ℚ) / 2, 1 / 2]).getD i 0 +
            (1 / 2 : ℚ) * ([(1 : ℚ) / 2, 1 / 2]).getD i 0)
     ∧ |(predict_proba (constModel (["Normal", "DDoS"]) [1 / 2, 1 / 2]) [0, 0]).1.sum - 1|
         ≤ 1 / 1000000) :=
  ⟨by norm_num,
   predict_proba_fusion (constModel (["Normal", "DDoS"]) [1 / 2, 1 / 2]) [0, 0]
     [1 / 2, 1 / 2] [1 / 2, 1 / 2] rfl rfl (by norm_num [constModel]) rfl
     (by norm_num [List.sum_cons]) (by norm_num [List.sum_cons])⟩

/-- Claim C6: reconstruction-error scoring is the mean of the squared
elementwise differences over all elements of the input (for a
shape-preserving backend), and both batched variants score each row
independently, with no cross-row mixing. -/
theorem recon_error_mean_per_row (infer f : List ℚ → List ℚ) (v : List ℚ)
    (rows : List (List ℚ))
    (h : (infer v).length = v.length)
    (hf : ∀ row, (f row).length = row.length) :
    compute_reconstruction_error infer v = spec_mean_recon_error v (infer v)
    ∧ trt_ae_score infer v = spec_mean_recon_error v (infer v)
    ∧ (∀ i : Nat, (trt_ae_score_batch infer rows)[i]? =
        (rows[i]?).map (trt_ae_score infer))
    ∧ (∀ i : Nat, (torch_score_batch f rows)[i]? =
        (rows[i]?).map (fun row => spec_mean_recon_error row (f row))) := by
  have hmean : sqDiffSum v (infer v) =
      Finset.sum (Finset.range v.length)
        (fun i => (v.getD i 0 - (infer v).getD i 0) ^ 2) :=
    sqDiffSum_eq_range v (infer v) h.symm
  refine ⟨?_, ?_, ?_, ?_⟩
  · unfold compute_reconstruction_error spec_mean_recon_error
    rw [hmean]
  · have hmin : min v.length (infer v).length = v.length := by
      rw [h]
      exact min_self _
    have htake2 : (infer v).take v.length = infer v := by
      rw [← h]
      exact List.take_length _
    show sqDiffSum (List.take (min v.length (infer v).length) v)
        (List.take (min v.length (infer v).length) (infer v)) /
        (((min v.length (infer v).length) : Nat) : ℚ) =
        spec_mean_recon_error v (infer v)
    rw [hmin, List.take_length, htake2, hmean]
    rfl
  · intro i
    simp [trt_ae_score_batch]
  · intro i
    simp only [torch_score_batch, List.getElem?_map]
    cases hrow : rows[i]? with
    | none => rfl
    | some row =>
      have hrowval : sqDiffSum row (f row) / ((row.length : ℚ)) =
          spec_mean_recon_error row (f row) := by
        unfold spec_mean_recon_error
        rw [sqDiffSum_eq_range row (f row) (hf row).symm]
      simp [hrowval]

/-- Witness for recon_error_mean_per_row at the identity backend. -/
theorem recon_error_mean_per_row_witness :
    ((fun (l : List ℚ) => l) [1, 2]).length = ([1, 2] : List ℚ).length ∧
    (compute_reconstruction_error (fun l => l) [1, 2] =
        spec_mean_recon_error [1, 2] ((fun (l : List ℚ) => l) [1, 2])
     ∧ trt_ae_score (fun l => l) [1, 2] =
        spec_mean_recon_error [1, 2] ((fun (l : List ℚ) => l) [1, 2])
     ∧ (∀ i : Nat, (trt_ae_score_batch (fun l => l) [[1, 2]])[i]? =
        (([[1, 2]] : List (List ℚ))[i]?).map (trt_ae_score (fun l => l)))
     ∧ (∀ i : Nat, (torch_score_batch (fun l => l) [[1, 2]])[i]? =
        (([[1, 2]] : List (List ℚ))[i]?).map
          (fun row => spec_mean_recon_error row ((fun (l : List ℚ) => l) row)))) :=
  ⟨rfl, recon_error_mean_per_row (fun l => l) (fun l => l) [1, 2] [[1, 2]]
    rfl (fun _ => rfl)⟩

lemma hash_cast_bound (B : PyBuiltins) (x : PyVal) :
    0 ≤ ((hash_string B x : Nat) : ℚ) ∧ ((hash_string B x : Nat) : ℚ) < 100000 := by
  have hlt : hash_string B x < 100000 := by
    unfold hash_string
    exact Nat.mod_lt _ (by norm_num)
  constructor
  · exact_mod_cast Nat.zero_le _
  · exact_mod_cast hlt

/-- Claim C10: the effective hash_string (the second definition in
fhir_features.py, which shadows the earlier modulus-10000 one) always
returns a value in the range 0 up to 100000, depends on its input only
through str(value), and consequently every hashed component of the
extract_features output (positions 0, 1, 2, 4 and 5) lies in the same
range. -/
theorem hash_string_bounds (B : PyBuiltins) (v w input : PyVal)
    (feats : List ℚ) (meta : FeatureMeta) :
    hash_string B v < 100000
    ∧ (B.pyStr v = B.pyStr w → hash_string B v = hash_string B w)
    ∧ (extract_features B input = Except.ok (feats, meta) →
        (0 ≤ feats.getD 0 0 ∧ feats.getD 0 0 < 100000)
        ∧ (0 ≤ feats.getD 1 0 ∧ feats.getD 1 0 < 100000)
        ∧ (0 ≤ feats.getD 2 0 ∧ feats.getD 2 0 < 100000)
        ∧ (0 ≤ feats.getD 4 0 ∧ feats.getD 4 0 < 100000)
        ∧ (0 ≤ feats.getD 5 0 ∧ feats.getD 5 0 < 100000)) := by
  refine ⟨?_, ?_, ?_⟩
  · unfold hash_string
    exact Nat.mod_lt _ (by norm_num)
  · intro hsw
    unfold hash_string
    rw [hsw]
  · intro hok
    unfold extract_features at hok
    dsimp only at hok
    split at hok
    · exact absurd hok (by simp)
    · exact absurd hok (by simp)
    · rw [Except.ok.injEq, Prod.mk.injEq] at hok
      obtain ⟨hfeats, -⟩ := hok
      rw [← hfeats]
      exact ⟨hash_cast_bound B _, hash_cast_bound B _, hash_cast_bound B _,
        hash_cast_bound B _, hash_cast_bound B _⟩

/-- Witness for hash_string_bounds at the test builtins and empty dict. -/
theorem hash_string_bounds_witness :
    extract_features testBuiltins (PyVal.dict []) =
      Except.ok ([12345, 12345, 12345, 0, 12345, 12345, 0, 0],
        { resourceType := PyVal.str ("Unknown"), action := PyVal.str (""),
          outcome := 0, user_hash := 12345, ip_hash := 12345,
          agent_count := 0 })
    ∧ ((0 ≤ ([(12345 : ℚ), 12345, 12345, 0, 12345, 12345, 0, 0]).getD 0 0
          ∧ ([(12345 : ℚ), 12345, 12345, 0, 12345, 12345, 0, 0]).getD 0 0 < 100000)
       ∧ (0 ≤ ([(12345 : ℚ), 12345, 12345, 0, 12345, 12345, 0, 0]).getD 1 0
          ∧ ([(12345 : ℚ), 12345, 12345, 0, 12345, 12345, 0, 0]).getD 1 0 < 100000)
       ∧ (0 ≤ ([(12345 : ℚ), 12345, 12345, 0, 12345, 12345, 0, 0]).getD 2 0
          ∧ ([(12345 : ℚ), 12345, 12345, 0, 12345, 12345, 0, 0]).getD 2 0 < 100000)
       ∧ (0 ≤ ([(12345 : ℚ), 12345, 12345, 0, 12345, 12345, 0, 0]).getD 4 0
          ∧ ([(12345 : ℚ), 12345, 12345, 0, 12345, 12345, 0, 0]).getD 4 0 < 100000)
       ∧ (0 ≤ ([(12345 : ℚ), 12345, 12345, 0, 12345, 12345, 0, 0]).getD 5 0
          ∧ ([(12345 : ℚ), 12345, 12345, 0, 12345, 12345, 0, 0]).getD 5 0 < 100000)) :=
  ⟨rfl,
   (hash_string_bounds testBuiltins PyVal.none PyVal.none (PyVal.dict [])
     [12345, 12345, 12345, 0, 12345, 12345, 0, 0]
     { resourceType := PyVal.str ("Unknown"), action := PyVal.str (""),
       outcome := 0, user_hash := 12345, ip_hash := 12345,
       agent_count := 0 }).2.2 rfl⟩

lemma fuseProbs_half_eval :
    fuseProbs (1 / 2) (1 / 2) [1 / 10, 9 / 10] [1 / 10, 9 / 10] =
      ([1 / 10, 9 / 10] : List ℚ) := by
  simp [fuseProbs]
  norm_num

lemma argmaxIdx_eval : argmaxIdx [1 / 10, 9 / 10] = 1 := by
  norm_num [argmaxIdx, argmaxAux]

lemma maxList_eval : maxList [1 / 10, 9 / 10] = 9 / 10 := by
  simp [maxList]
  norm_num

lemma classifierOutput_cex (cls : List String) (c : String)
    (hc : cls.get? 1 = Option.some c) :
    classifierOutput (constModel cls [1 / 10, 9 / 10]) [0, 0] = (c, 9 / 10) := by
  have hpp : predict_proba (constModel cls [1 / 10, 9 / 10]) [0, 0] =
      ([1 / 10, 9 / 10], cls) := by
    unfold predict_proba constModel
    dsimp only
    rw [fuseProbs_half_eval]
  unfold classifierOutput
  rw [hpp]
  simp only [argmaxIdx_eval, hc, maxList_eval]

lemma fhir_notify_cex_eval (cls : List String) (c : String) (mse : ℚ)
    (hc : cls.get? 1 = Option.some c) :
    fhir_notify (ServerState.mk true true) (constModel cls [1 / 10, 9 / 10])
        (Option.some mse) [0, 0] =
      { pred := c, score := 9 / 10,
        sev := compute_severity true c mse (9 / 10),
        anom := decide (c ∈ attack_classes) || decide (MSE_THRESHOLD_HIGH < mse),
        cnnMse := mse, cnnAvailable := true,
        rfInvoked := true, xgbInvoked := true } := by
  unfold fhir_notify
  dsimp only
  rw [classifierOutput_cex cls c hc]
  simp [Bool.true_and]

lemma ddos_attack_sev : compute_severity true ("DDoS") 0 (9 / 10) = "HIGH" := by
  unfold compute_severity
  rw [if_pos ⟨by simp [attack_classes], by norm_num⟩]

/-- Claim C1 (counterexample): with the anomaly score 0 (strictly below any
of the configured thresholds, in particular below 0.01 and below
MSE_THRESHOLD_LOW = 0.05), fhir_notify still invokes both tree-ensemble
classifiers, returns their label "DDoS" rather than "Normal", sets
isAnomalous, and returns the classifier confidence 9/10 rather than the
anomaly score: there is no fast-exit short-circuit in the code. -/
theorem fhir_notify_low_mse_counterexample :
    (0 : ℚ) < 1 / 100
    ∧ (fhir_notify (ServerState.mk true true)
        (constModel (["Normal", "DDoS"]) [1 / 10, 9 / 10])
        (Option.some 0) [0, 0]).rfInvoked = true
    ∧ (fhir_notify (ServerState.mk true true)
        (constModel (["Normal", "DDoS"]) [1 / 10, 9 / 10])
        (Option.some 0) [0, 0]).xgbInvoked = true
    ∧ (fhir_notify (ServerState.mk true true)
        (constModel (["Normal", "DDoS"]) [1 / 10, 9 / 10])
        (Option.some 0) [0, 0]).pred = "DDoS"
    ∧ (fhir_notify (ServerState.mk true true)
        (constModel (["Normal", "DDoS"]) [1 / 10, 9 / 10])
        (Option.some 0) [0, 0]).pred ≠ "Normal"
    ∧ (fhir_notify (ServerState.mk true true)
        (constModel (["Normal", "DDoS"]) [1 / 10, 9 / 10])
        (Option.some 0) [0, 0]).anom = true
    ∧ (fhir_notify (ServerState.mk true true)
        (constModel (["Normal", "DDoS"]) [1 / 10, 9 / 10])
        (Option.some 0) [0, 0]).score = 9 / 10
    ∧ (fhir_notify (ServerState.mk true true)
        (constModel (["Normal", "DDoS"]) [1 / 10, 9 / 10])
        (Option.some 0) [0, 0]).score ≠ 0
    ∧ (fhir_notify (ServerState.mk true true)
        (constModel (["Normal", "DDoS"]) [1 / 10, 9 / 10])
        (Option.some 0) [0, 0]).cnnMse = 0 := by
  have heval := fhir_notify_cex_eval (["Normal", "DDoS"]) ("DDoS") 0 rfl
  rw [heval]
  refine ⟨by norm_num, rfl, rfl, rfl, by decide, ?_, rfl, by norm_num, rfl⟩
  rw [decide_eq_true (by simp [attack_classes] : ("DDoS") ∈ attack_classes)]
  rfl

/-- Claim C1 (amended): fhir_notify has no fast exit.  Whenever the
classifier model is ready, both tree-ensemble classifiers are invoked even
when the anomaly score is strictly below MSE_THRESHOLD_LOW, and the
response carries the classifier label and classifier confidence, not
"Normal" and not the anomaly score. -/
theorem fhir_notify_no_fast_exit (st : ServerState) (m : HybridModel)
    (mse : ℚ) (features : List ℚ)
    (hm : st.modelReady = true) (hmse : mse < MSE_THRESHOLD_LOW) :
    (fhir_notify st m (Option.some mse) features).rfInvoked = true
    ∧ (fhir_notify st m (Option.some mse) features).xgbInvoked = true
    ∧ (fhir_notify st m (Option.some mse) features).pred =
        (classifierOutput m features).1
    ∧ (fhir_notify st m (Option.some mse) features).score =
        (classifierOutput m features).2 := by
  unfold fhir_notify
  rw [hm]
  dsimp only
  exact ⟨rfl, rfl, rfl, rfl⟩

/-- Witness for fhir_notify_no_fast_exit at a concrete model and request. -/
theorem fhir_notify_no_fast_exit_witness :
    ((0 : ℚ) < MSE_THRESHOLD_LOW)
    ∧ (fhir_notify (ServerState.mk true true)
        (constModel (["Normal", "DDoS"]) [1 / 10, 9 / 10])
        (Option.some 0) [0, 0]).rfInvoked = true
    ∧ (fhir_notify (ServerState.mk true true)
        (constModel (["Normal", "DDoS"]) [1 / 10, 9 / 10])
        (Option.some 0) [0, 0]).xgbInvoked = true
    ∧ (fhir_notify (ServerState.mk true true)
        (constModel (["Normal", "DDoS"]) [1 / 10, 9 / 10])
        (Option.some 0) [0, 0]).pred =
      (classifierOutput (constModel (["Normal", "DDoS"]) [1 / 10, 9 / 10]) [0, 0]).1
    ∧ (fhir_notify (ServerState.mk true true)
        (constModel (["Normal", "DDoS"]) [1 / 10, 9 / 10])
        (Option.some 0) [0, 0]).score =
      (classifierOutput (constModel (["Normal", "DDoS"]) [1 / 10, 9 / 10]) [0, 0]).2 := by
  have hlow : (0 : ℚ) < MSE_THRESHOLD_LOW := by norm_num [MSE_THRESHOLD_LOW]
  have h := fhir_notify_no_fast_exit (ServerState.mk true true)
    (constModel (["Normal", "DDoS"]) [1 / 10, 9 / 10]) 0 [0, 0] rfl hlow
  exact ⟨hlow, h.1, h.2.1, h.2.2.1, h.2.2.2⟩

/-- Claim C2 (counterexample): on the classification path (anomaly score
1/5, which is at least MSE_THRESHOLD_LOW) with fused classifier confidence
9/10, the spec formula gives min(1, 1/5 + (1 - 9/10) * 0.5) = 1/4, but the
code returns the bare classifier confidence 9/10. -/
theorem fhir_notify_score_counterexample :
    MSE_THRESHOLD_LOW ≤ (1 / 5 : ℚ)
    ∧ (fhir_notify (ServerState.mk true true)
        (constModel (["Normal", "DDoS"]) [1 / 10, 9 / 10])
        (Option.some (1 / 5)) [0, 0]).cnnMse = 1 / 5
    ∧ (fhir_notify (ServerState.mk true true)
        (constModel (["Normal", "DDoS"]) [1 / 10, 9 / 10])
        (Option.some (1 / 5)) [0, 0]).score = 9 / 10
    ∧ spec_combined_score (1 / 5) (9 / 10) = 1 / 4
    ∧ (fhir_notify (ServerState.mk true true)
        (constModel (["Normal", "DDoS"]) [1 / 10, 9 / 10])
        (Option.some (1 / 5)) [0, 0]).score ≠
      spec_combined_score (1 / 5) (9 / 10) := by
  have heval := fhir_notify_cex_eval (["Normal", "DDoS"]) ("DDoS") (1 / 5) rfl
  have hcomb : spec_combined_score (1 / 5) (9 / 10) = 1 / 4 := by
    unfold spec_combined_score
    rw [min_eq_right (by norm_num : (1 / 5 : ℚ) + (1 - 9 / 10) * (1 / 2) ≤ 1)]
    norm_num
  rw [heval, hcomb]
  exact ⟨by norm_num [MSE_THRESHOLD_LOW], rfl, rfl, rfl, by norm_num⟩

/-- Claim C2 (amended): on the classification path the score field equals
the maximum fused classifier probability (the confidence), with no
combined-score adjustment from the anomaly score. -/
theorem fhir_notify_score_is_confidence (st : ServerState) (m : HybridModel)
    (mse : ℚ) (features : List ℚ) (p : ℚ) (ps : List ℚ) (c : String)
    (hm : st.modelReady = true)
    (hprobs : (predict_proba m features).1 = p :: ps)
    (hcls : (predict_proba m features).2.get? (argmaxIdx (p :: ps)) =
      Option.some c)
    (hmse : MSE_THRESHOLD_LOW ≤ mse) :
    (fhir_notify st m (Option.some mse) features).score = maxList (p :: ps)
    ∧ (fhir_notify st m (Option.some mse) features).pred = c := by
  have hco : classifierOutput m features = (c, maxList (p :: ps)) := by
    unfold classifierOutput
    dsimp only
    rw [hprobs, hcls]
  unfold fhir_notify
  rw [hm]
  dsimp only
  rw [hco]
  exact ⟨rfl, rfl⟩

/-- Witness for fhir_notify_score_is_confidence at a concrete model. -/
theorem fhir_notify_score_is_confidence_witness :
    MSE_THRESHOLD_LOW ≤ (1 / 5 : ℚ)
    ∧ (fhir_notify (ServerState.mk true true)
        (constModel (["Normal", "DDoS"]) [1 / 10, 9 / 10])
        (Option.some (1 / 5)) [0, 0]).score = maxList [1 / 10, 9 / 10]
    ∧ (fhir_notify (ServerState.mk true true)
        (constModel (["Normal", "DDoS"]) [1 / 10, 9 / 10])
        (Option.some (1 / 5)) [0, 0]).pred = "DDoS" := by
  have hlow : MSE_THRESHOLD_LOW ≤ (1 / 5 : ℚ) := by norm_num [MSE_THRESHOLD_LOW]
  have hprobs : (predict_proba (constModel (["Normal", "DDoS"]) [1 / 10, 9 / 10])
      [0, 0]).1 = (1 / 10 : ℚ) :: [9 / 10] := by
    unfold predict_proba constModel
    dsimp only
    rw [fuseProbs_half_eval]
  have hcls : (predict_proba (constModel (["Normal", "DDoS"]) [1 / 10, 9 / 10])
      [0, 0]).2.get? (argmaxIdx ((1 / 10 : ℚ) :: [9 / 10])) = Option.some ("DDoS") := by
    rw [argmaxIdx_eval]
    rfl
  have h := fhir_notify_score_is_confidence (ServerState.mk true true)
    (constModel (["Normal", "DDoS"]) [1 / 10, 9 / 10]) (1 / 5) [0, 0]
    (1 / 10) [9 / 10] ("DDoS") rfl hprobs hcls hlow
  exact ⟨hlow, h.1, h.2⟩

/-- Claim C3 (counterexample): the fhir_notify variant violates the
claimed disjunction.  With predicted class "Suspicious" (confidence 9/10)
and anomaly score 0, the code reports isAnomalous = false even though the
predicted label differs from "Normal" and the severity is MEDIUM, not LOW. -/
theorem fhir_notify_anom_counterexample :
    (fhir_notify (ServerState.mk true true)
        (constModel (["Normal", "Suspicious"]) [1 / 10, 9 / 10])
        (Option.some 0) [0, 0]).anom = false
    ∧ (fhir_notify (ServerState.mk true true)
        (constModel (["Normal", "Suspicious"]) [1 / 10, 9 / 10])
        (Option.some 0) [0, 0]).pred = "Suspicious"
    ∧ (fhir_notify (ServerState.mk true true)
        (constModel (["Normal", "Suspicious"]) [1 / 10, 9 / 10])
        (Option.some 0) [0, 0]).sev = "MEDIUM"
    ∧ ¬ ((fhir_notify (ServerState.mk true true)
        (constModel (["Normal", "Suspicious"]) [1 / 10, 9 / 10])
        (Option.some 0) [0, 0]).anom = true ↔
      ((fhir_notify (ServerState.mk true true)
        (constModel (["Normal", "Suspicious"]) [1 / 10, 9 / 10])
        (Option.some 0) [0, 0]).pred ≠ "Normal"
       ∨ (fhir_notify (ServerState.mk true true)
        (constModel (["Normal", "Suspicious"]) [1 / 10, 9 / 10])
        (Option.some 0) [0, 0]).sev ≠ "LOW")) := by
  have heval := fhir_notify_cex_eval (["Normal", "Suspicious"]) ("Suspicious") 0 rfl
  have hsev : compute_severity true ("Suspicious") 0 (9 / 10) = "MEDIUM" := by
    rw [compute_severity_zero]
    unfold classifier_only_severity
    rw [if_neg (by simp [attack_classes]), if_pos (by simp [suspicious_classes])]
  have hanom : (decide (("Suspicious") ∈ attack_classes) ||
      decide (MSE_THRESHOLD_HIGH < (0 : ℚ))) = false := by
    rw [decide_eq_false (by simp [attack_classes]),
      decide_eq_false (by norm_num [MSE_THRESHOLD_HIGH])]
    rfl
  rw [heval, hsev]
  refine ⟨hanom, rfl, rfl, ?_⟩
  intro hiff
  have : (decide (("Suspicious") ∈ attack_classes) ||
      decide (MSE_THRESHOLD_HIGH < (0 : ℚ))) = true :=
    hiff.mpr (Or.inl (by decide))
  rw [hanom] at this
  exact Bool.false_ne_true this

/-- Claim C3 (amended): in the EdgeDetector.analyze variant the claim holds
exactly: the anomaly flag is true precisely when the predicted label
differs from the configured normal class or the severity differs from LOW. -/
theorem analyze_anom_iff (d : DetectorCfg) (predLabel : String)
    (probVec : List ℚ) (classes : List String) (h : probVec ≠ []) :
    ((analyze d predLabel probVec classes).anom = true ↔
      ((analyze d predLabel probVec classes).pred ≠ d.normalClass ∨
       (analyze d predLabel probVec classes).sev ≠ "LOW")) := by
  unfold analyze
  dsimp only
  simp [Bool.or_eq_true, decide_eq_true_iff]

/-- Witness for analyze_anom_iff at a concrete detector and probability row. -/
theorem analyze_anom_iff_witness :
    ([(1 : ℚ) / 2, 1 / 2] ≠ ([] : List ℚ))
    ∧ ((analyze (DetectorCfg.mk ("Normal") (95 / 100) (85 / 100)) ("DDoS")
          [1 / 2, 1 / 2] ["Normal", "DDoS"]).anom = true ↔
        ((analyze (DetectorCfg.mk ("Normal") (95 / 100) (85 / 100)) ("DDoS")
          [1 / 2, 1 / 2] ["Normal", "DDoS"]).pred ≠ "Normal"
         ∨ (analyze (DetectorCfg.mk ("Normal") (95 / 100) (85 / 100)) ("DDoS")
          [1 / 2, 1 / 2] ["Normal", "DDoS"]).sev ≠ "LOW")) :=
  ⟨by simp,
   analyze_anom_iff (DetectorCfg.mk ("Normal") (95 / 100) (85 / 100)) ("DDoS")
     [1 / 2, 1 / 2] ["Normal", "DDoS"] (by simp)⟩

/-- Claim C7: when the anomaly backend is unavailable (CNN not ready, or
its reconstruction-error call raises), fhir_notify still returns a result:
the reported mse is 0, the response marks the CNN as unavailable, and the
severity equals the classifier-only judgment, which ignores the
reconstruction error entirely. -/
theorem fhir_notify_degraded (st : ServerState) (m : HybridModel)
    (cnnResult : Option ℚ) (features : List ℚ)
    (h : st.cnnReady = false ∨ cnnResult = Option.none) :
    (fhir_notify st m cnnResult features).cnnMse = 0
    ∧ (fhir_notify st m cnnResult features).cnnAvailable = false
    ∧ (fhir_notify st m cnnResult features).sev =
        classifier_only_severity (fhir_notify st m cnnResult features).pred
          (fhir_notify st m cnnResult features).score := by
  rcases h with h | h
  · unfold fhir_notify
    rw [h]
    dsimp only
    exact ⟨rfl, rfl, compute_severity_zero false _ _⟩
  · subst h
    cases hc : st.cnnReady with
    | false =>
      unfold fhir_notify
      rw [hc]
      dsimp only
      exact ⟨rfl, rfl, compute_severity_zero false _ _⟩
    | true =>
      unfold fhir_notify
      rw [hc]
      dsimp only
      exact ⟨rfl, rfl, compute_severity_zero true _ _⟩

/-- Witness for fhir_notify_degraded with the CNN flagged not ready. -/
theorem fhir_notify_degraded_witness :
    (fhir_notify (ServerState.mk true false)
        (constModel (["Normal", "DDoS"]) [1 / 10, 9 / 10])
        (Option.some 1) [0, 0]).cnnMse = 0
    ∧ (fhir_notify (ServerState.mk true false)
        (constModel (["Normal", "DDoS"]) [1 / 10, 9 / 10])
        (Option.some 1) [0, 0]).cnnAvailable = false
    ∧ (fhir_notify (ServerState.mk true false)
        (constModel (["Normal", "DDoS"]) [1 / 10, 9 / 10])
        (Option.some 1) [0, 0]).sev =
      classifier_only_severity
        (fhir_notify (ServerState.mk true false)
          (constModel (["Normal", "DDoS"]) [1 / 10, 9 / 10])
          (Option.some 1) [0, 0]).pred
        (fhir_notify (ServerState.mk true false)
          (constModel (["Normal", "DDoS"]) [1 / 10, 9 / 10])
          (Option.some 1) [0, 0]).score :=
  fhir_notify_degraded (ServerState.mk true false)
    (constModel (["Normal", "DDoS"]) [1 / 10, 9 / 10]) (Option.some 1) [0, 0]
    (Or.inl rfl)

/-- Claim C4 (counterexample): compute_severity is not the pure three-tier
lookup on the anomaly score.  At mse = 0 with predicted class "DDoS" and
confidence 9/10 the attack-class override returns HIGH, while the
three-tier lookup at boundaries (0.05, 0.15) returns LOW. -/
theorem compute_severity_not_three_tier_counterexample :
    MSE_THRESHOLD_LOW ≤ MSE_THRESHOLD_HIGH
    ∧ compute_severity true ("DDoS") 0 (9 / 10) = "HIGH"
    ∧ spec_three_tier MSE_THRESHOLD_LOW MSE_THRESHOLD_HIGH 0 = "LOW"
    ∧ compute_severity true ("DDoS") 0 (9 / 10) ≠
        spec_three_tier MSE_THRESHOLD_LOW MSE_THRESHOLD_HIGH 0 := by
  have hlook : spec_three_tier MSE_THRESHOLD_LOW MSE_THRESHOLD_HIGH 0 = "LOW" := by
    unfold spec_three_tier
    rw [if_neg (by norm_num [MSE_THRESHOLD_HIGH]),
      if_neg (by norm_num [MSE_THRESHOLD_LOW])]
  refine ⟨by norm_num [MSE_THRESHOLD_LOW, MSE_THRESHOLD_HIGH],
    ddos_attack_sev, hlook, ?_⟩
  rw [ddos_attack_sev, hlook]
  decide

/-- Claim C4 (amended): EdgeDetector._severity is exactly the three-tier
lookup on its score and is non-decreasing in the score for fixed
thresholds; the compute_severity of the server is also non-decreasing in the
reconstruction error for fixed class and confidence, but it is not the
pure three-tier lookup. -/
theorem severity_three_tier_monotone (d : DetectorCfg) (b : Bool)
    (pred : String) (conf s1 s2 m1 m2 : ℚ)
    (hd : d.sevMed ≤ d.sevHigh) (hs : s1 ≤ s2) (hm : m1 ≤ m2) :
    det_severity d s1 = spec_three_tier d.sevMed d.sevHigh s1
    ∧ sevRank (det_severity d s1) ≤ sevRank (det_severity d s2)
    ∧ sevRank (compute_severity b pred m1 conf) ≤
        sevRank (compute_severity b pred m2 conf) := by
  refine ⟨rfl, ?_, ?_⟩
  · unfold det_severity
    split_ifs <;> first | decide | (exfalso; linarith)
  · by_cases hA : pred ∈ attack_classes ∧ 7 / 10 < conf
    · unfold compute_severity
      rw [if_pos hA, if_pos hA]
    · by_cases hB1 : b = true ∧ MSE_THRESHOLD_HIGH < m1
      · have hB2 : b = true ∧ MSE_THRESHOLD_HIGH < m2 :=
          ⟨hB1.1, lt_of_lt_of_le hB1.2 hm⟩
        unfold compute_severity
        rw [if_neg hA, if_neg hA, if_pos hB1, if_pos hB2]
      · by_cases hB2 : b = true ∧ MSE_THRESHOLD_HIGH < m2
        · unfold compute_severity
          rw [if_neg hA, if_neg hA, if_neg hB1, if_pos hB2]
          split_ifs <;> decide
        · by_cases hC1 : b = true ∧ MSE_THRESHOLD_LOW < m1
          · have hC2 : b = true ∧ MSE_THRESHOLD_LOW < m2 :=
              ⟨hC1.1, lt_of_lt_of_le hC1.2 hm⟩
            unfold compute_severity
            rw [if_neg hA, if_neg hA, if_neg hB1, if_neg hB2, if_pos hC1,
              if_pos hC2]
          · by_cases hC2 : b = true ∧ MSE_THRESHOLD_LOW < m2
            · unfold compute_severity
              rw [if_neg hA, if_neg hA, if_neg hB1, if_neg hB2, if_neg hC1,
                if_pos hC2]
              split_ifs <;> decide
            · unfold compute_severity
              rw [if_neg hA, if_neg hA, if_neg hB1, if_neg hB2, if_neg hC1,
                if_neg hC2]

/-- Witness for severity_three_tier_monotone at concrete thresholds and
scores. -/
theorem severity_three_tier_monotone_witness :
    ((85 / 100 : ℚ) ≤ 95 / 100 ∧ (0 : ℚ) ≤ 1)
    ∧ (det_severity (DetectorCfg.mk ("Normal") (95 / 100) (85 / 100)) 0 =
        spec_three_tier (85 / 100) (95 / 100) 0
       ∧ sevRank (det_severity (DetectorCfg.mk ("Normal") (95 / 100) (85 / 100)) 0) ≤
          sevRank (det_severity (DetectorCfg.mk ("Normal") (95 / 100) (85 / 100)) 1)
       ∧ sevRank (compute_severity true ("Normal") 0 0) ≤
          sevRank (compute_severity true ("Normal") 1 0)) :=
  ⟨⟨by norm_num, by norm_num⟩,
   severity_three_tier_monotone (DetectorCfg.mk ("Normal") (95 / 100) (85 / 100))
     true ("Normal") 0 0 1 0 1 (by norm_num) (by norm_num) (by norm_num)⟩
